import Mathlib

/-!
Verification of the upload-session client of `scripts/upload_file.py`
(saving-to-obsidian repository).

The development shallowly embeds the pieces of the script the claims are
about: the Java-style identity hashers (`java_hash`, `hash_file_bytes`), the
binary chunk transmitter (the while-loop inside the `FileUpload` branch of
`on_message`), the session callbacks (`on_message`, `on_error`), the
REST completion verifier (`verify_file_via_rest` and the retry loop in
`upload_one`), the final result classification of `upload_one`, and the
batch loop of `main`.

Bytes and character code points are modelled as `Nat`; Python's 32-bit
signed truncation `ctypes.c_int32(x).value` becomes `c_int32 : Int → Int`;
fallible operations (`struct.pack` overflow) return `Option`.
-/

namespace UploadFile

/-- Python `ctypes.c_int32(x).value`: reduce `x` modulo `2^32` and interpret
the result as a signed 32-bit two's-complement value. -/
def c_int32 (x : Int) : Int :=
  let m := x % (4294967296 : Int)
  if m < 2147483648 then m else m - 4294967296

/-- `java_hash` (upload_file.py lines 39-44): fold
`h = c_int32((h << 5) - h + ord(ch))` over the characters of the input,
starting from `h = 0`, and render the result in decimal. The input string is
modelled as its list of character code points; `(h << 5) - h` is written
`h * 32 - h`. -/
def java_hash (s : List Nat) : String :=
  toString (s.foldl (fun (h : Int) (ch : Nat) => c_int32 (h * 32 - h + (ch : Int))) 0)

/-- `hash_file_bytes` (upload_file.py lines 47-54): the identical fold over
the file's byte values. -/
def hash_file_bytes (data : List Nat) : String :=
  toString (data.foldl (fun (h : Int) (b : Nat) => c_int32 (h * 32 - h + (b : Int))) 0)

/-- Modelled from the spec (§4.1), for refinement comparison only:
`h*31 + code` reduced mod `2^32` and interpreted as signed. -/
def specHashStep (h : Int) (code : Nat) : Int :=
  let m := (h * 31 + (code : Int)) % (4294967296 : Int)
  if m < 2147483648 then m else m - 4294967296

/-- Modelled from the spec (§4.1): iterate `specHashStep` from 0. -/
def specHashFold (l : List Nat) : Int :=
  l.foldl specHashStep 0

/-- Big-endian 4-byte encoding of a natural number below `2^32`. -/
def u32be (i : Nat) : List Nat :=
  [i / 16777216 % 256, i / 65536 % 256, i / 256 % 256, i % 256]

/-- Python `struct.pack(">I", i)`: the 4-byte big-endian encoding when
`i < 2^32`, a `struct.error` (modelled as `none`) otherwise. -/
def packU32 (i : Nat) : Option (List Nat) :=
  if i < 4294967296 then some (u32be i) else none

/-- The sequence of chunks the transmitter loop reads: repeated
`f.read(chunk_size)` until the read comes back empty. `read(0)` returns the
empty byte string at once, so a zero chunk size yields no chunks. -/
def chunksOf (cs : Nat) (data : List Nat) : List (List Nat) :=
  if h : cs = 0 ∨ data = [] then []
  else data.take cs :: chunksOf cs (data.drop cs)
termination_by data.length
decreasing_by
  push_neg at h
  simp only [List.length_drop]
  exact Nat.sub_lt (List.length_pos.mpr h.2) (Nat.pos_of_ne_zero h.1)

/-- The transmitter loop of `on_message` (upload_file.py lines 166-175),
started at counter `i`: read a chunk, frame it as
`b"00" + sid + struct.pack(">I", i) + chunk`, and continue with `i + 1`.
The session identifier is given as its ASCII byte values; the marker
`b"00"` is the two bytes 48, 48. `none` models a `struct.error` from a
counter that does not fit 4 bytes. -/
def send_chunks_from (sid : List Nat) (cs : Nat) (data : List Nat) (i : Nat) :
    Option (List (List Nat)) :=
  if h : cs = 0 ∨ data = [] then some []
  else
    match packU32 i with
    | none => none
    | some ib =>
        (send_chunks_from sid cs (data.drop cs) (i + 1)).map
          (fun rest => ([48, 48] ++ sid ++ ib ++ data.take cs) :: rest)
termination_by data.length
decreasing_by
  push_neg at h
  simp only [List.length_drop]
  exact Nat.sub_lt (List.length_pos.mpr h.2) (Nat.pos_of_ne_zero h.1)

/-- The full chunk transmission: the loop started at counter 0. -/
def send_chunks (sid : List Nat) (cs : Nat) (data : List Nat) :
    Option (List (List Nat)) :=
  send_chunks_from sid cs data 0

/-- The frame list a successful transmission produces: one frame per chunk,
counters increasing by one from `i`. -/
def chunkFrames (sid : List Nat) : Nat → List (List Nat) → List (List Nat)
  | _, [] => []
  | i, c :: rest => ([48, 48] ++ sid ++ u32be i ++ c) :: chunkFrames sid (i + 1) rest

theorem chunksOf_nil (cs : Nat) : chunksOf cs [] = [] := by
  simp [chunksOf]

theorem chunksOf_cons (cs : Nat) (data : List Nat) (h : ¬(cs = 0 ∨ data = [])) :
    chunksOf cs data = data.take cs :: chunksOf cs (data.drop cs) := by
  rw [chunksOf, dif_neg h]

theorem chunksOf_eq_nil_iff (cs : Nat) (data : List Nat) :
    chunksOf cs data = [] ↔ cs = 0 ∨ data = [] := by
  constructor
  · intro h
    by_contra hc
    rw [chunksOf_cons cs data hc] at h
    exact List.cons_ne_nil _ _ h
  · intro h
    rw [chunksOf, dif_pos h]

theorem chunksOf_flatten (cs : Nat) (hcs : 0 < cs) :
    ∀ data : List Nat, (chunksOf cs data).flatten = data := by
  intro data
  induction data using chunksOf.induct cs with
  | case1 data h =>
      rcases h with h | h
      · omega
      · subst h; simp [chunksOf]
  | case2 data h ih =>
      rw [chunksOf_cons cs data h]
      simp [List.flatten, ih]

theorem chunksOf_mem_length (cs : Nat) (hcs : 0 < cs) :
    ∀ data : List Nat, ∀ c ∈ chunksOf cs data, c.length ≤ cs ∧ c ≠ [] := by
  intro data
  induction data using chunksOf.induct cs with
  | case1 data h =>
      rcases h with h | h
      · omega
      · subst h; simp [chunksOf_nil]
  | case2 data h ih =>
      rw [chunksOf_cons cs data h]
      intro c hc
      rcases List.mem_cons.mp hc with hc | hc
      · subst hc
        push_neg at h
        refine ⟨by simp, ?_⟩
        simp only [ne_eq, List.take_eq_nil_iff]
        push_neg
        exact ⟨by omega, h.2⟩
      · exact ih c hc

theorem chunksOf_length_of_not_last (cs : Nat) (hcs : 0 < cs) :
    ∀ (data : List Nat) (j : Nat) (c : List Nat),
      (chunksOf cs data)[j]? = some c → j + 1 < (chunksOf cs data).length →
      c.length = cs := by
  intro data
  induction data using chunksOf.induct cs with
  | case1 data h =>
      rcases h with h | h
      · omega
      · subst h
        intro j c hj
        simp [chunksOf_nil] at hj
  | case2 data h ih =>
      intro j c hj hlen
      rw [chunksOf_cons cs data h] at hj hlen
      match j with
      | 0 =>
          simp only [List.getElem?_cons_zero, Option.some.injEq] at hj
          subst hj
          simp only [List.length_cons] at hlen
          have hrest : chunksOf cs (data.drop cs) ≠ [] := by
            intro hnil
            rw [hnil] at hlen
            simp at hlen
          have hdrop : data.drop cs ≠ [] := by
            intro hd
            exact hrest (by rw [chunksOf_eq_nil_iff]; exact Or.inr hd)
          have : cs < data.length := by
            by_contra hle
            push_neg at hle
            exact hdrop (List.drop_eq_nil_of_le hle)
          simp [List.length_take]
          omega
      | j + 1 =>
          simp only [List.getElem?_cons_succ] at hj
          simp only [List.length_cons] at hlen
          exact ih j c hj (by omega)

theorem chunkFrames_length (sid : List Nat) :
    ∀ (i : Nat) (cl : List (List Nat)), (chunkFrames sid i cl).length = cl.length := by
  intro i cl
  induction cl generalizing i with
  | nil => rfl
  | cons c rest ih => simp [chunkFrames, ih]

theorem chunkFrames_getElem (sid : List Nat) :
    ∀ (cl : List (List Nat)) (i j : Nat),
      (chunkFrames sid i cl)[j]? =
        (cl[j]?).map (fun c => [48, 48] ++ sid ++ u32be (i + j) ++ c) := by
  intro cl
  induction cl with
  | nil => intro i j; simp [chunkFrames]
  | cons c rest ih =>
      intro i j
      match j with
      | 0 => simp [chunkFrames]
      | j + 1 =>
          simp only [chunkFrames, List.getElem?_cons_succ, ih (i + 1) j]
          have : i + 1 + j = i + (j + 1) := by omega
          rw [this]

theorem send_chunks_from_eq (sid : List Nat) (cs : Nat) (hcs : 0 < cs) :
    ∀ (data : List Nat) (i : Nat) (fs : List (List Nat)),
      send_chunks_from sid cs data i = some fs →
      fs = chunkFrames sid i (chunksOf cs data) := by
  intro data
  induction data using chunksOf.induct cs with
  | case1 data h =>
      rcases h with h | h
      · omega
      · subst h
        intro i fs hs
        rw [send_chunks_from, dif_pos (Or.inr rfl)] at hs
        simp only [Option.some.injEq] at hs
        subst hs
        simp [chunksOf_nil, chunkFrames]
  | case2 data h ih =>
      intro i fs hs
      cases hp : packU32 i with
      | none =>
          rw [send_chunks_from, dif_neg h, hp] at hs
          simp at hs
      | some ib =>
          rw [send_chunks_from, dif_neg h, hp] at hs
          cases hr : send_chunks_from sid cs (data.drop cs) (i + 1) with
          | none => rw [hr] at hs; simp at hs
          | some rest =>
              rw [hr] at hs
              simp only [Option.map, Option.some.injEq] at hs
              have hib : ib = u32be i := by
                unfold packU32 at hp
                by_cases hi : i < 4294967296
                · rw [if_pos hi] at hp
                  exact (Option.some.injEq _ _ ▸ hp).symm
                · rw [if_neg hi] at hp; exact absurd hp (by simp)
              rw [chunksOf_cons cs data h]
              simp only [chunkFrames]
              rw [← hs, hib, ih (i + 1) rest hr]

/-- The shared mutable session record of `upload_one`
(upload_file.py line 106) together with the observable connection status:
`done_event` models `done_event.set()` and `closed` models `ws.close()`
having been called by a handler. -/
structure SessState where
  done : Bool := false
  error : Option String := none
  chunks_sent : Bool := false
  no_update : Bool := false
  done_event : Bool := false
  closed : Bool := false
deriving DecidableEq, Repr

/-- The JSON fields of an inbound textual body that `on_message` reads:
`code`, `status` (as its truthiness), `message`, and inside `data` the
`sessionId` and `chunkSize` entries. Missing fields are `none` (Python
`dict.get` returning `None` / the default). -/
structure JBody where
  code : Option Int := none
  status : Bool := false
  message : Option String := none
  sessionId : Option String := none
  chunkSize : Option Nat := none
deriving DecidableEq, Repr

/-- An inbound raw frame after the `raw.find("|")` split of `on_message`:
`bare b` is a frame without an action separator whose JSON parse gives `b`
(`bare none` is a body that is not valid JSON, the `json.JSONDecodeError`
case); `tagged a b` is `a ++ "|" ++ body` with parsed body `b`. -/
inductive Inbound where
  | bare (body : Option JBody)
  | tagged (action : String) (body : JBody)
deriving DecidableEq, Repr

/-- The observable side effects a handler performs, in order. `sendText a`
is an outbound textual frame with action tag `a` (payload bodies are not
modelled); `sendChunkFrames sid csz` stands for the binary-chunk loop of
lines 166-175, whose emitted frames are `send_chunks` of the file bytes;
`sleep n` is `time.sleep(n)`; `setEvent` is `done_event.set()`; `close` is
`ws.close()`. -/
inductive Effect where
  | sendText (action : String)
  | sendChunkFrames (sid : String) (chunkSize : Nat)
  | sleep (secs : Nat)
  | setEvent
  | close
deriving DecidableEq, Repr

/-- `on_message` (upload_file.py lines 112-191) as a transition function on
the session record, returning the new record and the effects performed. -/
def on_message (st : SessState) (m : Inbound) : SessState × List Effect :=
  match m with
  | .bare none => (st, [])
  | .bare (some body) =>
      if (body.code = some 1 ∨ body.code = some 6) ∧ st.chunks_sent then
        ({ st with done := true, done_event := true, closed := true },
         [.setEvent, .close])
      else (st, [])
  | .tagged action body =>
      if action = "Authorization" then
        if body.status then (st, [.sendText "ClientInfo"])
        else
          ({ st with error := some ("auth failed: " ++ body.message.getD "None"),
                     done_event := true, closed := true },
           [.setEvent, .close])
      else if action = "ClientInfo" then
        (st, [.sendText "FileUploadCheck"])
      else if action = "FileUpload" then
        if body.code = some 6 then
          ({ st with done := true, no_update := true, done_event := true,
                     closed := true },
           [.setEvent, .close])
        else if body.sessionId.getD "" = "" then
          ({ st with error := some "missing sessionId", done_event := true,
                     closed := true },
           [.setEvent, .close])
        else
          ({ st with chunks_sent := true, done_event := true, closed := true },
           [.sendChunkFrames (body.sessionId.getD "") (body.chunkSize.getD 524288),
            .sleep 2, .setEvent, .close])
      else
        if body.code = some 1 ∧ st.chunks_sent then
          ({ st with done := true, done_event := true, closed := true },
           [.setEvent, .close])
        else (st, [])

/-- `on_error` (upload_file.py lines 193-195): record the error string and
release the orchestrating wait. It does not close the connection itself. -/
def on_error (st : SessState) (err : String) : SessState :=
  { st with error := some err, done_event := true }

/-- The fields of the `/api/file/info` response body that
`verify_file_via_rest` reads: `code`, and inside `data` the `contentHash`. -/
structure RestData where
  contentHash : Option String := none
deriving DecidableEq, Repr

/-- A parsed REST response; `data = none` also covers a falsy `data`. -/
structure RestResponse where
  code : Option Int := none
  data : Option RestData := none
deriving DecidableEq, Repr

/-- `verify_file_via_rest` (upload_file.py lines 77-89): `none` models a
transport error or a JSON decode error (the swallowed exceptions); the
function returns `true` exactly when `code == 1`, `data` is truthy, and the
stored `contentHash` (default `""`) equals the expected fingerprint. -/
def verify_file_via_rest (resp : Option RestResponse) (expected : String) : Bool :=
  match resp with
  | none => false
  | some body =>
      match body.code, body.data with
      | some 1, some d => d.contentHash.getD "" = expected
      | _, _ => false

/-- Events of the verification retry loop in `upload_one`
(upload_file.py lines 223-226): one `attempt i` per call of
`verify_file_via_rest`, one `sleep2` per `time.sleep(2)`. -/
inductive VerEvent where
  | attempt (i : Nat)
  | sleep2
deriving DecidableEq, Repr

/-- The retry loop `for attempt in range(3)` of `upload_one`, with `fuel`
iterations left and `i` the current attempt number; `resp i` is the REST
response the server gives to attempt `i`. Returns whether a match was found
together with the event trace: on a match the loop returns at once; on a
failed attempt it sleeps 2 seconds and continues. -/
def verifyAttempts (resp : Nat → Option RestResponse) (expected : String) :
    Nat → Nat → Bool × List VerEvent
  | 0, _ => (false, [])
  | fuel + 1, i =>
      if verify_file_via_rest (resp i) expected then (true, [.attempt i])
      else
        let r := verifyAttempts resp expected fuel (i + 1)
        (r.1, .attempt i :: .sleep2 :: r.2)

/-- The verifier as `upload_one` runs it: 3 attempts starting at 0. -/
def restVerifyLoop (resp : Nat → Option RestResponse) (expected : String) :
    Bool × List VerEvent :=
  verifyAttempts resp expected 3 0

/-- Number of read attempts recorded in a verifier trace. -/
def attemptCount (tr : List VerEvent) : Nat :=
  (tr.filter fun e => match e with | .attempt _ => true | _ => false).length

/-- A per-file result dict. `path` is optional because the missing-file
record built in `main` (line 247) carries no `"path"` key. -/
structure UploadResult where
  file : String
  path : Option String
  success : Bool
  error : Option String
deriving DecidableEq, Repr

/-- Python truthiness of `state["error"]`: `None` and the empty string are
both falsy, any other string is truthy. -/
def errTruthy (e : Option String) : Bool :=
  match e with
  | none => false
  | some s => s ≠ ""

/-- The result classification at the end of `upload_one`
(upload_file.py lines 211-229), given the final session record, the REST
responses and the expected content fingerprint. Line 213's
`if state["error"]:` is a truthiness test, so a recorded empty error string
falls through to the done/chunks classification like `None` does. Returns
the result dict and the verifier trace (empty when the verifier never
ran). -/
def upload_one_result (basename rpath : String) (st : SessState)
    (resp : Nat → Option RestResponse) (expected : String) :
    UploadResult × List VerEvent :=
  if errTruthy st.error then
    (⟨basename, some rpath, false, st.error⟩, [])
  else if st.done ∧ (st.no_update ∨ ¬st.chunks_sent) then
    (⟨basename, some rpath, true, none⟩, [])
  else if st.chunks_sent then
    let r := restVerifyLoop resp expected
    if r.1 then (⟨basename, some rpath, true, none⟩, r.2)
    else (⟨basename, some rpath, false, some "chunks sent but verify failed"⟩, r.2)
  else (⟨basename, some rpath, false, some "timeout"⟩, [])

/-- The batch loop of `main` (upload_file.py lines 244-258). `fex` is
`os.path.isfile`; `up fp` abstracts the full `upload_one` call for input
path `fp` (with the fixed vault, URL and token environment). Returns the
ordered result list and the list of paths for which `upload_one` was
invoked, i.e. for which any connection or protocol interaction happened. -/
def main_loop (fex : String → Bool) (up : String → UploadResult) :
    List String → List UploadResult × List String
  | [] => ([], [])
  | fp :: rest =>
      if fex fp then
        let r := main_loop fex up rest
        (up fp :: r.1, fp :: r.2)
      else
        let r := main_loop fex up rest
        (⟨fp, none, false, some "file not found"⟩ :: r.1, r.2)

theorem main_loop_eq (fex : String → Bool) (up : String → UploadResult) :
    ∀ files : List String,
      main_loop fex up files
        = (files.map (fun fp =>
              if fex fp then up fp else ⟨fp, none, false, some "file not found"⟩),
           files.filter fex) := by
  intro files
  induction files with
  | nil => rfl
  | cons fp rest ih =>
      by_cases hf : fex fp
      · simp [main_loop, hf, ih, List.filter_cons]
      · simp [main_loop, hf, ih, List.filter_cons]

theorem verifyLoop_all_fail (resp : Nat → Option RestResponse) (expected : String)
    (h0 : verify_file_via_rest (resp 0) expected = false)
    (h1 : verify_file_via_rest (resp 1) expected = false)
    (h2 : verify_file_via_rest (resp 2) expected = false) :
    restVerifyLoop resp expected
      = (false, [.attempt 0, .sleep2, .attempt 1, .sleep2, .attempt 2, .sleep2]) := by
  show verifyAttempts resp expected 3 0 = _
  rw [show (3 : Nat) = 2 + 1 from rfl, verifyAttempts, if_neg (by simp [h0]),
      show (2 : Nat) = 1 + 1 from rfl, verifyAttempts, if_neg (by simp [h1]),
      show (1 : Nat) = 0 + 1 from rfl, verifyAttempts, if_neg (by simp [h2]),
      verifyAttempts]

theorem upload_one_result_fields (b p : String) (st : SessState)
    (resp : Nat → Option RestResponse) (expected : String) :
    (upload_one_result b p st resp expected).1.path = some p
    ∧ (upload_one_result b p st resp expected).1.file = b := by
  unfold upload_one_result
  dsimp only
  constructor <;> (repeat' split) <;> rfl

theorem verifyLoop_match0 (resp : Nat → Option RestResponse) (expected : String)
    (h0 : verify_file_via_rest (resp 0) expected = true) :
    restVerifyLoop resp expected = (true, [.attempt 0]) := by
  show verifyAttempts resp expected 3 0 = _
  rw [show (3 : Nat) = 2 + 1 from rfl, verifyAttempts, if_pos h0]

theorem verifyLoop_match1 (resp : Nat → Option RestResponse) (expected : String)
    (h0 : verify_file_via_rest (resp 0) expected = false)
    (h1 : verify_file_via_rest (resp 1) expected = true) :
    restVerifyLoop resp expected
      = (true, [.attempt 0, .sleep2, .attempt 1]) := by
  show verifyAttempts resp expected 3 0 = _
  rw [show (3 : Nat) = 2 + 1 from rfl, verifyAttempts, if_neg (by simp [h0]),
      show (2 : Nat) = 1 + 1 from rfl, verifyAttempts, if_pos h1]

theorem verifyLoop_match2 (resp : Nat → Option RestResponse) (expected : String)
    (h0 : verify_file_via_rest (resp 0) expected = false)
    (h1 : verify_file_via_rest (resp 1) expected = false)
    (h2 : verify_file_via_rest (resp 2) expected = true) :
    restVerifyLoop resp expected
      = (true, [.attempt 0, .sleep2, .attempt 1, .sleep2, .attempt 2]) := by
  show verifyAttempts resp expected 3 0 = _
  rw [show (3 : Nat) = 2 + 1 from rfl, verifyAttempts, if_neg (by simp [h0]),
      show (2 : Nat) = 1 + 1 from rfl, verifyAttempts, if_neg (by simp [h1]),
      show (1 : Nat) = 0 + 1 from rfl, verifyAttempts, if_pos h2]

theorem hashStep_eq :
    (fun (h : Int) (ch : Nat) => c_int32 (h * 32 - h + (ch : Int))) = specHashStep := by
  funext h c
  simp only [c_int32, specHashStep]
  have : h * 32 - h + (c : Int) = h * 31 + (c : Int) := by ring
  rw [this]

end UploadFile

open UploadFile in
/-- Counterexample to C3: after all chunks were sent
(`chunks_sent = true`), an inbound marker-less success message with code 1
does set `done`, but the final result classification of `upload_one` still
runs the REST Completion Verifier (the trace is nonempty), and when the
read endpoint never matches, the session ends as a failure — it does not
resolve directly to success on a fast path. -/
theorem C3_counterexample :
    (on_message { chunks_sent := true } (Inbound.bare (some { code := some 1 }))).1.done
      = true
    ∧ (upload_one_result "a.png" "a.png"
        (on_message { chunks_sent := true } (Inbound.bare (some { code := some 1 }))).1
        (fun _ => none) "h").2 ≠ []
    ∧ (upload_one_result "a.png" "a.png"
        (on_message { chunks_sent := true } (Inbound.bare (some { code := some 1 }))).1
        (fun _ => none) "h").1
      = ⟨"a.png", some "a.png", false, some "chunks sent but verify failed"⟩ := by
  decide

open UploadFile in
/-- C3 as amended: a recognized success code arriving after all chunks were
sent — a marker-less frame with code 1 or 6, or a textual frame with code 1
whose action is none of `Authorization`/`ClientInfo`/`FileUpload` (the
catch-all at upload_file.py line 188; a `FileUpload`-tagged code-1 frame
instead takes the sessionId branch) — records `done` and closes the
connection early, but the session does NOT skip the Completion Verifier:
since chunks were sent and `no_update` is not set, the final result is
exactly the verifier's outcome and its read requests are issued. -/
theorem C3_success_code_still_verifies (st : SessState) (m : Inbound)
    (hcs : st.chunks_sent = true) (herr : st.error = none)
    (hnu : st.no_update = false)
    (hm : (∃ body : JBody, m = Inbound.bare (some body)
            ∧ (body.code = some 1 ∨ body.code = some 6))
        ∨ (∃ (action : String) (body : JBody), m = Inbound.tagged action body
            ∧ action ≠ "Authorization" ∧ action ≠ "ClientInfo"
            ∧ action ≠ "FileUpload" ∧ body.code = some 1))
    (b p expected : String) (resp : Nat → Option RestResponse) :
    (on_message st m).1.done = true
    ∧ (on_message st m).1.closed = true
    ∧ (upload_one_result b p (on_message st m).1 resp expected).2
        = (restVerifyLoop resp expected).2
    ∧ (upload_one_result b p (on_message st m).1 resp expected).1.success
        = (restVerifyLoop resp expected).1 := by
  have hmsg : on_message st m
      = ({ st with done := true, done_event := true, closed := true },
         [Effect.setEvent, Effect.close]) := by
    rcases hm with ⟨body, hbm, hcode⟩ | ⟨action, body, hbm, ha, hc, hf, hcode⟩
    · subst hbm
      simp only [on_message]
      rw [if_pos (show (body.code = some 1 ∨ body.code = some 6)
            ∧ st.chunks_sent = true from ⟨hcode, hcs⟩)]
    · subst hbm
      simp only [on_message]
      rw [if_neg ha, if_neg hc, if_neg hf,
          if_pos (show body.code = some 1 ∧ st.chunks_sent = true
            from ⟨hcode, hcs⟩)]
  rw [hmsg]
  refine ⟨rfl, rfl, ?_⟩
  unfold upload_one_result
  simp only [herr]
  rw [if_neg (by decide), if_neg (by simp [hnu, hcs]), if_pos (by simp [hcs])]
  cases hr : (restVerifyLoop resp expected).1 <;> simp [hr]

open UploadFile in
/-- Witness for C3's amended theorem at both message forms: with chunks
sent, a marker-less code-1 frame and a textual `Success`-tagged code-1
frame each set `done`, yet the verifier trace is still the classification's
trace — the verifier's read requests are issued. -/
theorem C3_success_code_still_verifies_witness :
    ((on_message { chunks_sent := true }
        (Inbound.bare (some { code := some 1 }))).1.done = true
      ∧ (upload_one_result "b.png" "b.png"
          (on_message { chunks_sent := true }
            (Inbound.bare (some { code := some 1 }))).1
          (fun _ => some { code := some 1, data := some { contentHash := some "h" } })
          "h").2
        = (restVerifyLoop
            (fun _ => some { code := some 1, data := some { contentHash := some "h" } })
            "h").2)
    ∧ ((on_message { chunks_sent := true }
        (Inbound.tagged "Success" { code := some 1 })).1.done = true
      ∧ (upload_one_result "b.png" "b.png"
          (on_message { chunks_sent := true }
            (Inbound.tagged "Success" { code := some 1 })).1
          (fun _ => none) "h").2
        = (restVerifyLoop (fun _ => none) "h").2) := by
  have h1 := C3_success_code_still_verifies { chunks_sent := true }
    (Inbound.bare (some { code := some 1 })) rfl rfl rfl
    (Or.inl ⟨{ code := some 1 }, rfl, Or.inl rfl⟩) "b.png" "b.png" "h"
    (fun _ => some { code := some 1, data := some { contentHash := some "h" } })
  have h2 := C3_success_code_still_verifies { chunks_sent := true }
    (Inbound.tagged "Success" { code := some 1 }) rfl rfl rfl
    (Or.inr ⟨"Success", { code := some 1 }, rfl, by decide, by decide, by decide, rfl⟩)
    "b.png" "b.png" "h" (fun _ => none)
  exact ⟨⟨h1.1, h1.2.2.1⟩, ⟨h2.1, h2.2.2.1⟩⟩

open UploadFile in
/-- Counterexample to C4: with a read endpoint that never matches, the
retry loop's trace is attempt, sleep, attempt, sleep, attempt, sleep — the
fixed 2-second backoff also happens after the third (final) unsuccessful
attempt, so the verifier does not return immediately after it. -/
theorem C4_counterexample :
    (restVerifyLoop (fun _ => none) "h").2
      = [VerEvent.attempt 0, VerEvent.sleep2, VerEvent.attempt 1, VerEvent.sleep2,
         VerEvent.attempt 2, VerEvent.sleep2]
    ∧ (restVerifyLoop (fun _ => none) "h").2.getLast? = some VerEvent.sleep2 := by
  decide

open UploadFile in
/-- C4 as amended: in the Completion Verifier's retry loop the fixed
2-second backoff occurs after every unsuccessful attempt, including the
final (third) one: when all three attempts fail, the loop sleeps once more
after the last attempt and only then returns the verification failure. -/
theorem C4_backoff_after_every_attempt (resp : Nat → Option RestResponse)
    (expected : String)
    (hfail : ∀ i, i < 3 → verify_file_via_rest (resp i) expected = false) :
    restVerifyLoop resp expected
      = (false, [VerEvent.attempt 0, VerEvent.sleep2, VerEvent.attempt 1,
                 VerEvent.sleep2, VerEvent.attempt 2, VerEvent.sleep2]) :=
  verifyLoop_all_fail resp expected
    (hfail 0 (by omega)) (hfail 1 (by omega)) (hfail 2 (by omega))

open UploadFile in
/-- Witness for C4's amended theorem at the never-matching endpoint. -/
theorem C4_backoff_after_every_attempt_witness :
    restVerifyLoop (fun _ => none) "x"
      = (false, [VerEvent.attempt 0, VerEvent.sleep2, VerEvent.attempt 1,
                 VerEvent.sleep2, VerEvent.attempt 2, VerEvent.sleep2]) :=
  C4_backoff_after_every_attempt (fun _ => none) "x" (fun _ _ => rfl)

open UploadFile

/-- C1: for every file content and every positive negotiated chunk size, the
chunked transmitter emits one frame per chunk of the form
`marker "00" ++ sid ++ big-endian-32 index ++ chunk`; indices start at 0 and
increase by 1 with no gaps, every chunk except possibly the last has exactly
the negotiated size (and all chunks are nonempty and at most that size), a
zero-byte file produces zero frames, and concatenating the chunk payloads in
ascending index order reproduces the original file bytes exactly. -/
theorem C1_chunked_transmitter (sid data : List Nat) (cs : Nat) (hcs : 0 < cs)
    (frames : List (List Nat)) (hsend : send_chunks sid cs data = some frames) :
    frames = chunkFrames sid 0 (chunksOf cs data)
    ∧ frames.length = (chunksOf cs data).length
    ∧ (∀ j c, (chunksOf cs data)[j]? = some c →
        frames[j]? = some ([48, 48] ++ sid ++ u32be j ++ c))
    ∧ (chunksOf cs data).flatten = data
    ∧ (∀ j c, (chunksOf cs data)[j]? = some c →
        j + 1 < (chunksOf cs data).length → c.length = cs)
    ∧ (∀ c ∈ chunksOf cs data, c.length ≤ cs ∧ c ≠ [])
    ∧ (data = [] → frames = []) := by
  have hfr : frames = chunkFrames sid 0 (chunksOf cs data) :=
    send_chunks_from_eq sid cs hcs data 0 frames hsend
  refine ⟨hfr, ?_, ?_, chunksOf_flatten cs hcs data,
    chunksOf_length_of_not_last cs hcs data, chunksOf_mem_length cs hcs data, ?_⟩
  · rw [hfr, chunkFrames_length]
  · intro j c hj
    rw [hfr, chunkFrames_getElem, hj]
    simp
  · intro hd
    subst hd
    rw [hfr, chunksOf_nil]
    rfl

/-- Witness for C1 at a concrete input: session id `"s"` (byte 115), chunk
size 2, a 5-byte file; the transmitter emits 3 frames with counters 0, 1, 2
and a short final chunk. -/
theorem C1_chunked_transmitter_witness :
    (0 : Nat) < 2
    ∧ send_chunks [115] 2 [10, 20, 30, 40, 50] =
        some [[48, 48, 115, 0, 0, 0, 0, 10, 20],
              [48, 48, 115, 0, 0, 0, 1, 30, 40],
              [48, 48, 115, 0, 0, 0, 2, 50]]
    ∧ (chunksOf 2 [10, 20, 30, 40, 50]).flatten = [10, 20, 30, 40, 50] := by
  have hsend : send_chunks [115] 2 [10, 20, 30, 40, 50] =
      some [[48, 48, 115, 0, 0, 0, 0, 10, 20],
            [48, 48, 115, 0, 0, 0, 1, 30, 40],
            [48, 48, 115, 0, 0, 0, 2, 50]] := by
    simp [send_chunks, send_chunks_from, packU32, u32be]
  exact ⟨by decide, hsend,
    (C1_chunked_transmitter [115] [10, 20, 30, 40, 50] 2 (by decide) _ hsend).2.2.2.1⟩

/-- C2: the path hasher `java_hash` returns the decimal rendering of the
32-bit signed fold `h := c_int32((h << 5) - h + code)` over the input's
character code points starting from 0, which coincides with the spec's
reading `h*31 + code mod 2^32 interpreted as signed` (`specHashFold`); the
content hasher `hash_file_bytes` is the identical fold over byte values;
empty input hashes to "0"; and the known Java reference value
hashCode("abc") = 96354 is reproduced. -/
theorem C2_identity_hasher (s data : List Nat) :
    java_hash s = toString (specHashFold s)
    ∧ hash_file_bytes data = toString (specHashFold data)
    ∧ java_hash data = hash_file_bytes data
    ∧ java_hash [] = "0"
    ∧ hash_file_bytes [] = "0"
    ∧ java_hash [97, 98, 99] = "96354" := by
  refine ⟨?_, ?_, rfl, rfl, rfl, by decide⟩
  · unfold java_hash specHashFold
    rw [hashStep_eq]
  · unfold hash_file_bytes specHashFold
    rw [hashStep_eq]

open UploadFile in
/-- C5: if the read endpoint never returns a matching content fingerprint,
the Completion Verifier performs exactly 3 read attempts and then reports a
verification failure; on the first attempt whose response has code 1 and a
`contentHash` equal to the expected fingerprint, it returns success with no
further attempts (k failing attempts before a match at attempt k give
exactly k+1 attempts). -/
theorem C5_verifier_retry_bound (resp : Nat → Option RestResponse)
    (expected : String) :
    ((∀ i, i < 3 → verify_file_via_rest (resp i) expected = false) →
       (restVerifyLoop resp expected).1 = false
       ∧ attemptCount (restVerifyLoop resp expected).2 = 3)
    ∧ (∀ k, k < 3 → verify_file_via_rest (resp k) expected = true →
        (∀ j, j < k → verify_file_via_rest (resp j) expected = false) →
        (restVerifyLoop resp expected).1 = true
        ∧ attemptCount (restVerifyLoop resp expected).2 = k + 1)
    ∧ (∀ h : String, verify_file_via_rest
        (some { code := some 1, data := some { contentHash := some h } }) h
        = true) := by
  refine ⟨?_, ?_, ?_⟩
  · intro hfail
    rw [verifyLoop_all_fail resp expected (hfail 0 (by omega)) (hfail 1 (by omega))
      (hfail 2 (by omega))]
    exact ⟨rfl, rfl⟩
  · intro k hk hmatch hbefore
    match k, hk with
    | 0, _ =>
        rw [verifyLoop_match0 resp expected hmatch]
        exact ⟨rfl, rfl⟩
    | 1, _ =>
        rw [verifyLoop_match1 resp expected (hbefore 0 (by omega)) hmatch]
        exact ⟨rfl, rfl⟩
    | 2, _ =>
        rw [verifyLoop_match2 resp expected (hbefore 0 (by omega))
          (hbefore 1 (by omega)) hmatch]
        exact ⟨rfl, rfl⟩
  · intro h
    simp [verify_file_via_rest]

open UploadFile in
/-- Witness for C5: a never-matching endpoint gives exactly (false, 3
attempts); an endpoint matching on the first attempt gives (true, 1
attempt). -/
theorem C5_verifier_retry_bound_witness :
    ((restVerifyLoop (fun _ => none) "x").1 = false
      ∧ attemptCount (restVerifyLoop (fun _ => none) "x").2 = 3)
    ∧ ((restVerifyLoop
          (fun _ => some { code := some 1, data := some { contentHash := some "x" } })
          "x").1 = true
      ∧ attemptCount (restVerifyLoop
          (fun _ => some { code := some 1, data := some { contentHash := some "x" } })
          "x").2 = 1) :=
  ⟨(C5_verifier_retry_bound (fun _ => none) "x").1 (fun _ _ => rfl),
   (C5_verifier_retry_bound
      (fun _ => some { code := some 1, data := some { contentHash := some "x" } })
      "x").2.1 0 (by omega) (by decide) (fun j hj => absurd hj (Nat.not_lt_zero j))⟩

open UploadFile in
/-- Counterexample to C6: an inbound marker-less frame whose body is not
valid JSON is silently ignored by `on_message` — no error is recorded, the
connection is not closed, and no effect is performed; the session does not
transition to a failure. -/
theorem C6_counterexample :
    (on_message ({ } : SessState) (Inbound.bare none)).1.error = none
    ∧ (on_message ({ } : SessState) (Inbound.bare none)).1.closed = false
    ∧ (on_message ({ } : SessState) (Inbound.bare none)).2 = [] := by
  decide

open UploadFile in
/-- C6 as amended: a marker-less frame whose body fails JSON parsing is
silently ignored in every session state (state unchanged, no effects, no
error recorded, connection left open); only a transport-level error
delivered to the error callback records the failure, setting the error
string and releasing the orchestrating wait (it does not itself close the
connection). -/
theorem C6_parse_error_ignored (st : SessState) (e : String) :
    on_message st (Inbound.bare none) = (st, [])
    ∧ (on_error st e).error = some e
    ∧ (on_error st e).done_event = true
    ∧ (on_error st e).closed = st.closed :=
  ⟨rfl, rfl, rfl, rfl⟩

open UploadFile in
/-- C7: in the batch loop, a missing local file yields the
"file not found" failure record in place, no `upload_one` invocation (so no
connection or protocol interaction) happens for it, every existing file is
attempted regardless of other entries' outcomes, and the output has exactly
one result per input, in input order. -/
theorem C7_orchestrator_resilience (fex : String → Bool)
    (up : String → UploadResult) (files : List String) :
    (main_loop fex up files).1.length = files.length
    ∧ (∀ (i : Nat) (fp : String), files[i]? = some fp → fex fp = false →
        (main_loop fex up files).1[i]?
          = some ⟨fp, none, false, some "file not found"⟩
        ∧ fp ∉ (main_loop fex up files).2)
    ∧ (∀ (i : Nat) (fp : String), files[i]? = some fp → fex fp = true →
        (main_loop fex up files).1[i]? = some (up fp)) := by
  have heq := main_loop_eq fex up files
  refine ⟨?_, ?_, ?_⟩
  · rw [heq]
    simp
  · intro i fp hi hfex
    rw [heq]
    dsimp only
    constructor
    · rw [List.getElem?_map, hi]
      simp [hfex]
    · intro hmem
      rw [List.mem_filter] at hmem
      have hcontra := hmem.2
      rw [hfex] at hcontra
      exact Bool.false_ne_true hcontra
  · intro i fp hi hfex
    rw [heq]
    dsimp only
    rw [List.getElem?_map, hi]
    simp [hfex]

open UploadFile in
/-- Witness for C7 on the batch ["ok", "bad"] where only "ok" exists: the
missing entry yields the failure record and is never handed to
`upload_one`, while "ok" is still uploaded and reported first. -/
theorem C7_orchestrator_resilience_witness :
    (main_loop (fun s => s == "ok") (fun fp => ⟨fp, some fp, true, none⟩)
        ["ok", "bad"]).1[1]?
      = some ⟨"bad", none, false, some "file not found"⟩
    ∧ "bad" ∉ (main_loop (fun s => s == "ok") (fun fp => ⟨fp, some fp, true, none⟩)
        ["ok", "bad"]).2
    ∧ (main_loop (fun s => s == "ok") (fun fp => ⟨fp, some fp, true, none⟩)
        ["ok", "bad"]).1[0]?
      = some ⟨"ok", some "ok", true, none⟩ := by
  have h := C7_orchestrator_resilience (fun s => s == "ok")
    (fun fp => ⟨fp, some fp, true, none⟩) ["ok", "bad"]
  exact ⟨(h.2.1 1 "bad" rfl (by decide)).1, (h.2.1 1 "bad" rfl (by decide)).2,
    h.2.2 0 "ok" rfl (by decide)⟩

open UploadFile in
/-- C8: a `FileUpload` response whose code is 6 (content already present)
makes the session record `done` and `no_update`, close the connection, emit
no binary chunk frame, and the per-file result is a success. -/
theorem C8_no_update_short_circuit (st : SessState) (body : JBody)
    (herr : st.error = none) (hcode : body.code = some 6)
    (b p expected : String) (resp : Nat → Option RestResponse) :
    on_message st (Inbound.tagged "FileUpload" body)
      = ({ st with done := true, no_update := true, done_event := true, closed := true },
         [Effect.setEvent, Effect.close])
    ∧ (∀ e ∈ (on_message st (Inbound.tagged "FileUpload" body)).2,
        ∀ sid csz, e ≠ Effect.sendChunkFrames sid csz)
    ∧ upload_one_result b p (on_message st (Inbound.tagged "FileUpload" body)).1
        resp expected
      = (⟨b, some p, true, none⟩, []) := by
  have hmsg : on_message st (Inbound.tagged "FileUpload" body)
      = ({ st with done := true, no_update := true, done_event := true, closed := true },
         [Effect.setEvent, Effect.close]) := by
    simp only [on_message]
    rw [if_pos trivial, if_pos hcode, if_neg (by decide), if_neg (by decide)]
  refine ⟨hmsg, ?_, ?_⟩
  · rw [hmsg]
    intro e he sid csz
    simp only [List.mem_cons, List.not_mem_nil, or_false] at he
    rcases he with rfl | rfl <;> simp
  · rw [hmsg]
    unfold upload_one_result
    dsimp only
    rw [herr]
    rw [if_neg (by decide), if_pos ⟨rfl, Or.inl rfl⟩]

open UploadFile in
/-- Witness for C8 at the fresh session record and a code-6 `FileUpload`
response: success with no chunk transmission and no verifier run. -/
theorem C8_no_update_short_circuit_witness :
    on_message ({ } : SessState) (Inbound.tagged "FileUpload" { code := some 6 })
      = ({ ({ } : SessState) with done := true, no_update := true, done_event := true, closed := true },
         [Effect.setEvent, Effect.close])
    ∧ upload_one_result "c.png" "c.png"
        (on_message ({ } : SessState)
          (Inbound.tagged "FileUpload" { code := some 6 })).1
        (fun _ => none) "h"
      = (⟨"c.png", some "c.png", true, none⟩, []) := by
  have h := C8_no_update_short_circuit { } { code := some 6 } rfl rfl
    "c.png" "c.png" "h" (fun _ => none)
  exact ⟨h.1, h.2.2⟩

open UploadFile in
/-- Counterexample to C9: the batch entry produced for a missing local file
is `{"file": fp, "success": False, "error": "file not found"}` — it carries
no remote path (`path = none`), so not every output element contains the
remote path. -/
theorem C9_counterexample :
    (main_loop (fun _ => false) (fun fp => ⟨fp, some fp, true, none⟩)
        ["missing.png"]).1
      = [⟨"missing.png", none, false, some "file not found"⟩] := rfl

open UploadFile in
/-- C9 as amended: every element of the batch output contains the file
name, a success flag and an optional error description; elements produced
by `upload_one` additionally contain the remote path, but the entry for a
missing local file omits the remote path. -/
theorem C9_result_fields (fex : String → Bool) (bn rp : String → String)
    (sess : String → SessState) (resp : String → Nat → Option RestResponse)
    (exp : String → String) (files : List String) (i : Nat) (fp : String)
    (hfp : files[i]? = some fp) :
    (fex fp = true →
      (main_loop fex
          (fun q => (upload_one_result (bn q) (rp q) (sess q) (resp q) (exp q)).1)
          files).1[i]?
        = some (upload_one_result (bn fp) (rp fp) (sess fp) (resp fp) (exp fp)).1
      ∧ (upload_one_result (bn fp) (rp fp) (sess fp) (resp fp) (exp fp)).1.path
          = some (rp fp)
      ∧ (upload_one_result (bn fp) (rp fp) (sess fp) (resp fp) (exp fp)).1.file
          = bn fp)
    ∧ (fex fp = false →
      (main_loop fex
          (fun q => (upload_one_result (bn q) (rp q) (sess q) (resp q) (exp q)).1)
          files).1[i]?
        = some ⟨fp, none, false, some "file not found"⟩) := by
  constructor
  · intro hf
    rw [main_loop_eq]
    dsimp only
    rw [List.getElem?_map, hfp]
    exact ⟨by simp [hf], (upload_one_result_fields (bn fp) (rp fp) (sess fp)
      (resp fp) (exp fp)).1, (upload_one_result_fields (bn fp) (rp fp) (sess fp)
      (resp fp) (exp fp)).2⟩
  · intro hf
    rw [main_loop_eq]
    dsimp only
    rw [List.getElem?_map, hfp]
    simp [hf]

open UploadFile in
/-- Witness for C9's amended theorem: an existing file's entry carries its
remote path, a missing file's entry does not. -/
theorem C9_result_fields_witness :
    ((main_loop (fun _ => true)
        (fun q => (upload_one_result q q ({ } : SessState) (fun _ => none) "h").1)
        ["a.png"]).1[0]?
      = some (upload_one_result "a.png" "a.png" ({ } : SessState)
          (fun _ => none) "h").1
      ∧ (upload_one_result "a.png" "a.png" ({ } : SessState)
          (fun _ => none) "h").1.path = some "a.png")
    ∧ (main_loop (fun _ => false)
        (fun q => (upload_one_result q q ({ } : SessState) (fun _ => none) "h").1)
        ["m.png"]).1[0]?
      = some ⟨"m.png", none, false, some "file not found"⟩ := by
  have h1 := C9_result_fields (fun _ => true) (fun q => q) (fun q => q)
    (fun _ => ({ } : SessState)) (fun _ _ => none) (fun _ => "h") ["a.png"] 0
    "a.png" rfl
  have h2 := C9_result_fields (fun _ => false) (fun q => q) (fun q => q)
    (fun _ => ({ } : SessState)) (fun _ _ => none) (fun _ => "h") ["m.png"] 0
    "m.png" rfl
  exact ⟨⟨(h1.1 rfl).1, (h1.1 rfl).2.1⟩, h2.2 rfl⟩

open UploadFile in
/-- C10: a recorded transport/socket error string dominates the result
classification of `upload_one`: whatever the other session flags say (even
`done`, `no_update` and `chunks_sent` all true), the per-file result is a
failure carrying that error string and the REST verifier is never run (its
trace is empty). The error string must be nonempty: line 213's
`if state["error"]:` is a truthiness test, so a recorded `""` is falsy and
falls through to the done/chunks classification instead. -/
theorem C10_error_takes_precedence (st : SessState) (e : String)
    (herr : st.error = some e) (hne : e ≠ "") (b p expected : String)
    (resp : Nat → Option RestResponse) :
    upload_one_result b p st resp expected = (⟨b, some p, false, some e⟩, []) := by
  unfold upload_one_result
  rw [herr]
  rw [if_pos (by simp [errTruthy, hne])]

open UploadFile in
/-- Witness for C10 at a session record with every success flag set and a
verifier that would match: the recorded error still wins and no
verification attempt appears in the trace. -/
theorem C10_error_takes_precedence_witness :
    upload_one_result "d.png" "d.png"
      { done := true, error := some "socket error", chunks_sent := true,
        no_update := true, done_event := true, closed := true }
      (fun _ => some { code := some 1, data := some { contentHash := some "h" } })
      "h"
      = (⟨"d.png", some "d.png", false, some "socket error"⟩, []) :=
  C10_error_takes_precedence _ "socket error" rfl (by decide) "d.png" "d.png" "h" _
